import Mathlib

/-!
Verification of the Allure-telephony report dashboard core logic:
the run summarizer (`fetchSummary` in allureReportFetcher.js), the run
catalog (`listAllReports`), the comparison engine (`generateComparison`
and the percent-change column of `CompareReports`), the client-side
reports cache (`shouldRefreshData` / `fetchAndCacheReports` in
ReportsContext.jsx) and the archive-download endpoint
(`GET /api/download-report/:runId` in the server).

JavaScript numbers that can become `Infinity`/`-Infinity` are modelled
with an explicit inductive (`TimeVal`, `JsPct`); `x || y` falsiness
(null, undefined and 0 are falsy) is modelled explicitly where the code
relies on it.
-/

/-- One parsed per-test result JSON document, as consumed by
`fetchSummary`: only `status`, `start` and `stop` matter to the
summarizer.  `none` models an absent field. -/
structure TestResult where
  status : String
  start : Option Int
  stop : Option Int
  deriving Repr, DecidableEq

/-- The `statistic` block of a run summary. -/
structure Statistic where
  total : Nat
  passed : Nat
  failed : Nat
  broken : Nat
  skipped : Nat
  deriving Repr, DecidableEq

/-- A time-bound value as the JavaScript code can produce it:
`null`, a finite number, or `Infinity` / `-Infinity`
(`Math.min()` / `Math.max()` of an empty spread). -/
inductive TimeVal where
  | null
  | fin (n : Int)
  | posInf
  | negInf
  deriving Repr, DecidableEq

/-- JSON serialization of a time bound, as `res.json` /
`JSON.stringify` performs it: non-finite numbers and `null` both
serialize to JSON `null`. -/
def TimeVal.toJson : TimeVal → Option Int
  | .fin n => some n
  | _ => none

/-- The `time` block of a run summary. -/
structure TimeBounds where
  start : TimeVal
  stop : TimeVal
  deriving Repr, DecidableEq

/-- The summary produced by `fetchSummary` for one run. -/
structure RunSummary where
  statistic : Statistic
  time : TimeBounds
  totalFiles : Nat
  deriving Repr, DecidableEq

/-- `{ runId, summary }` as assembled by `listAllReports`. -/
structure RunCatalogEntry where
  runId : String
  summary : RunSummary
  deriving Repr, DecidableEq

/-- `r.start || Date.now()`: JavaScript `||` substitutes `now` both when
the field is absent (`undefined`) and when it is the falsy number 0. -/
def jsOrNow (v : Option Int) (now : Int) : Int :=
  match v with
  | none => now
  | some n => if n = 0 then now else n

/-- `Math.min(...l)`: `Infinity` on an empty argument list, otherwise
the least element. -/
def mathMin : List Int → TimeVal
  | [] => .posInf
  | x :: xs => .fin (xs.foldl min x)

/-- `Math.max(...l)`: `-Infinity` on an empty argument list, otherwise
the greatest element. -/
def mathMax : List Int → TimeVal
  | [] => .negInf
  | x :: xs => .fin (xs.foldl max x)

/-- The `statistic` object built by `fetchSummary` from the clean
(successfully parsed) results:
`total = cleanResults.length`, and each per-status count is
`cleanResults.filter((r) => r.status === s).length` for the exact,
case-sensitive status string `s`. -/
def statisticOf (cleanResults : List TestResult) : Statistic :=
  { total := cleanResults.length
    passed := (cleanResults.filter (fun r => r.status == "passed")).length
    failed := (cleanResults.filter (fun r => r.status == "failed")).length
    broken := (cleanResults.filter (fun r => r.status == "broken")).length
    skipped := (cleanResults.filter (fun r => r.status == "skipped")).length }

/-- `Math.min(...cleanResults.map((r) => r.start || Date.now()))`. -/
def timeStartOf (cleanResults : List TestResult) (now : Int) : TimeVal :=
  mathMin (cleanResults.map (fun r => jsOrNow r.start now))

/-- `Math.max(...cleanResults.map((r) => r.stop || Date.now()))`. -/
def timeStopOf (cleanResults : List TestResult) (now : Int) : TimeVal :=
  mathMax (cleanResults.map (fun r => jsOrNow r.stop now))

/-- The all-zero summary returned when no `-result.json` files exist. -/
def zeroSummary : RunSummary :=
  { statistic := { total := 0, passed := 0, failed := 0, broken := 0, skipped := 0 }
    time := { start := .null, stop := .null }
    totalFiles := 0 }

/-- `fetchSummary(execId)` from allureReportFetcher.js, downstream of
the storage listing: `objectKeys` is the listed key set for the run's
storage area, `fetchParse k` is the per-file fetch+`JSON.parse` whose
failures are caught and turned into `null` (`none`), and `now` stands
for `Date.now()`.  Result files are those keys ending in
`-result.json`; if none exist the zero summary is returned, otherwise
counts are taken over the clean results and time bounds via
`Math.min`/`Math.max` with the `|| Date.now()` substitution. -/
def fetchSummary (objectKeys : List String) (fetchParse : String → Option TestResult)
    (now : Int) : RunSummary :=
  let resultFiles := objectKeys.filter (fun k => k.endsWith "-result.json")
  if resultFiles.isEmpty then zeroSummary
  else
    let results := resultFiles.map fetchParse
    let cleanResults := results.filterMap id
    { statistic := statisticOf cleanResults
      time := { start := timeStartOf cleanResults now, stop := timeStopOf cleanResults now }
      totalFiles := resultFiles.length }

/-- The reading of the time-bound sentence of the specification, for
comparison with the code: substitute `now` only for a record actually
missing the field, then take the minimum of the start fields. -/
def specTimeStart (cleanResults : List TestResult) (now : Int) : TimeVal :=
  mathMin (cleanResults.map (fun r => r.start.getD now))

/-- Spec reading of the stop bound: substitute `now` only for a record
actually missing the field, then take the maximum of the stop fields. -/
def specTimeStop (cleanResults : List TestResult) (now : Int) : TimeVal :=
  mathMax (cleanResults.map (fun r => r.stop.getD now))

/-- The `{name, stats, totalFiles, time}` view of a report that
`generateComparison` builds for each side. -/
structure ReportView where
  name : String
  stats : Statistic
  totalFiles : Nat
  time : TimeBounds
  deriving Repr, DecidableEq

/-- The per-category raw differences (`report2 - report1`) computed by
`generateComparison`. -/
structure Differences where
  total : Int
  passed : Int
  failed : Int
  broken : Int
  skipped : Int
  files : Int
  deriving Repr, DecidableEq

/-- A percentage value as JavaScript computes it: a finite number, or
`Infinity` when a positive count is divided by a zero total. -/
inductive JsPct where
  | num (q : ℚ)
  | posInf
  deriving Repr, DecidableEq

/-- `((part / total) * 100) || 0` over non-negative counts: `0/0` is
`NaN` (falsy, so `|| 0` yields 0), `p/0` with `p > 0` is `Infinity`
(truthy, kept), and otherwise the finite value (its `|| 0` guard only
re-yields 0 when the value is already 0).  The finite case is the exact
rational value of the double-precision computation's mathematical
intent. -/
def pctOrZero (part total : Nat) : JsPct :=
  if total = 0 then
    if part = 0 then .num 0 else .posInf
  else .num ((part : ℚ) / (total : ℚ) * 100)

/-- The per-status percentage-of-own-total block for one report. -/
structure Percentages where
  passed : JsPct
  failed : JsPct
  broken : JsPct
  skipped : JsPct
  deriving Repr, DecidableEq

/-- Both reports' percentage blocks. -/
structure ComparisonPercentages where
  report1 : Percentages
  report2 : Percentages
  deriving Repr, DecidableEq

/-- The comparison object assembled by `generateComparison`. -/
structure ComparisonResult where
  report1 : ReportView
  report2 : ReportView
  differences : Differences
  percentages : ComparisonPercentages
  deriving Repr, DecidableEq

/-- The `{name, stats, totalFiles, time}` view taken of one selected
report inside `generateComparison`. -/
def reportView (e : RunCatalogEntry) : ReportView :=
  { name := e.runId
    stats := e.summary.statistic
    totalFiles := e.summary.totalFiles
    time := e.summary.time }

/-- The per-status percentages of one report view, as
`generateComparison` computes them. -/
def percentagesOf (v : ReportView) : Percentages :=
  { passed := pctOrZero v.stats.passed v.stats.total
    failed := pctOrZero v.stats.failed v.stats.total
    broken := pctOrZero v.stats.broken v.stats.total
    skipped := pctOrZero v.stats.skipped v.stats.total }

/-- `generateComparison` from the CompareReports component: builds the
two report views, the raw `report2 - report1` differences for the five
status categories and the file count, and the percentage blocks. -/
def generateComparison (r1 r2 : RunCatalogEntry) : ComparisonResult :=
  let v1 := reportView r1
  let v2 := reportView r2
  { report1 := v1
    report2 := v2
    differences :=
      { total := (v2.stats.total : Int) - (v1.stats.total : Int)
        passed := (v2.stats.passed : Int) - (v1.stats.passed : Int)
        failed := (v2.stats.failed : Int) - (v1.stats.failed : Int)
        broken := (v2.stats.broken : Int) - (v1.stats.broken : Int)
        skipped := (v2.stats.skipped : Int) - (v1.stats.skipped : Int)
        files := (v2.totalFiles : Int) - (v1.totalFiles : Int) }
    percentages := { report1 := percentagesOf v1, report2 := percentagesOf v2 } }

/-- The percent-change column of the detailed comparison table in
CompareReports (`value1`/`value2` are the two reports' counts for one
category): `diff / value1 * 100` when `value1 > 0`; `value2 * 100` when
`value2 > 0` and `value1 === 0`; otherwise the string `N/A`, modelled
as `none`.  The finite value is the exact rational the code formats
with `toFixed(1)`. -/
def percentChange (value1 value2 : Int) : Option ℚ :=
  let diff := value2 - value1
  if value1 > 0 then some ((diff : ℚ) / (value1 : ℚ) * 100)
  else if value2 > 0 ∧ value1 = 0 then some ((value2 : ℚ) * 100)
  else none

/-- The overall summary block attached by the `/api/reports` endpoint
and cached by the client. -/
structure OverallSummary where
  totalReports : Nat
  totalTests : Nat
  lastUpdated : String
  deriving Repr, DecidableEq

/-- The `reportsCache` state of ReportsContext.jsx. -/
structure CacheState where
  reports : List RunCatalogEntry
  summary : Option OverallSummary
  lastFetched : Option Int
  loading : Bool
  error : Option String
  deriving Repr, DecidableEq

/-- `shouldRefreshData` from ReportsContext.jsx: refresh when
`lastFetched` is falsy (`null`, or the falsy number 0) or the cached
reports list is empty; otherwise when `lastFetched < Date.now() - 5 *
60 * 1000`. -/
def shouldRefreshData (c : CacheState) (now : Int) : Bool :=
  match c.lastFetched with
  | none => true
  | some t =>
    if t = 0 ∨ c.reports.length = 0 then true
    else decide (t < now - 5 * 60 * 1000)

/-- The outcome of one `fetchAndCacheReports` call: whether a network
fetch was performed, the cache state afterwards, and the value returned
to (or error thrown at) the caller. -/
structure GetOutcome where
  didFetch : Bool
  state : CacheState
  result : Except String (List RunCatalogEntry × Option OverallSummary)
  deriving Repr

/-- The result of the underlying `/api/reports` fetch: the parsed
`{reports, summary}` payload, or the thrown error's message. -/
inductive FetchOutcome where
  | ok (reports : List RunCatalogEntry) (summary : Option OverallSummary)
  | err (msg : String)
  deriving Repr, DecidableEq

/-- `fetchAndCacheReports(forceRefresh)` from ReportsContext.jsx, with
`now` standing for `Date.now()` and `fetchResult` for the outcome of
the network fetch.  With usable cached data and no force flag it
returns the cached reports and summary without fetching.  Otherwise it
fetches: on success the cache is replaced wholesale with the new data
and `lastFetched = now`; on failure the cache keeps its previous
`reports`, `summary` and `lastFetched` (the `...prev` spread), with
`loading` cleared and `error` set to the message. -/
def fetchAndCacheReports (c : CacheState) (forceRefresh : Bool) (now : Int)
    (fetchResult : FetchOutcome) : GetOutcome :=
  if !forceRefresh && !(shouldRefreshData c now) then
    { didFetch := false, state := c, result := .ok (c.reports, c.summary) }
  else
    match fetchResult with
    | .ok reports summary =>
      { didFetch := true
        state :=
          { reports := reports, summary := summary, lastFetched := some now
            loading := false, error := none }
        result := .ok (reports, summary) }
    | .err msg =>
      { didFetch := true
        state := { c with loading := false, error := some msg }
        result := .error msg }

/-- `listAllReports` from allureReportFetcher.js, downstream of the
run-id listing: the sequential `for (const runId of runIds)` loop
awaits `fetchSummary(runId)` for each run in order and pushes
`{runId, summary}`; an exception thrown by any one run's fetch
propagates and aborts the whole loop. -/
def listAllReports (runIds : List String)
    (fetchRun : String → Except String RunSummary) :
    Except String (List RunCatalogEntry) :=
  match runIds with
  | [] => .ok []
  | r :: rest =>
    match fetchRun r with
    | .error e => .error e
    | .ok s =>
      match listAllReports rest fetchRun with
      | .error e => .error e
      | .ok tail => .ok ({ runId := r, summary := s } :: tail)

/-- One listed storage object of the download endpoint. -/
structure S3Object where
  key : String
  deriving Repr, DecidableEq

/-- `path.basename(file.Key)`: the last `/`-separated component of the
key (empty for keys ending in `/`). -/
def basename (key : String) : String :=
  (key.splitOn "/").getLastD ""

/-- The observable response of the download endpoint: HTTP status, the
JSON error body if any, whether the ZIP download headers
(`Content-Type`/`Content-Disposition`) were set, and the archive entry
names streamed into the response body (`none` when no archive was
started). -/
structure DownloadResponse where
  status : Nat
  errorBody : Option String
  zipHeadersSet : Bool
  archiveEntries : Option (List String)
  deriving Repr, DecidableEq

/-- The `GET /api/download-report/:runId` handler, downstream of the
storage listing: `files` is the listing result for the run's storage
area and `fetchOk k` tells whether streaming object `k` succeeds.
A falsy `runId` yields 400; an empty listing yields the 404 JSON error
before any download headers are set or archive bytes written; otherwise
the ZIP headers are set and every listed object with a non-empty
basename whose stream succeeds is appended to the archive under its
basename (per-file failures are logged and skipped). -/
def downloadReport (runId : String) (files : List S3Object)
    (fetchOk : String → Bool) : DownloadResponse :=
  if runId = "" then
    { status := 400, errorBody := some "RunId is required"
      zipHeadersSet := false, archiveEntries := none }
  else if files.length = 0 then
    { status := 404, errorBody := some ("No files found for runId: " ++ runId)
      zipHeadersSet := false, archiveEntries := none }
  else
    { status := 200, errorBody := none, zipHeadersSet := true
      archiveEntries :=
        some ((files.filter (fun f => basename f.key != "" && fetchOk f.key)).map
          (fun f => basename f.key)) }

/-- A per-file fetch+parse that always fails (every file yields `null`). -/
def noParse : String → Option TestResult := fun _ => none

/-- A record whose `start` field is present but 0 — a falsy number to
JavaScript's `||`. -/
def exZeroStart : TestResult := { status := "passed", start := some 0, stop := some 5 }

/-- A small clean result list covering two of the known statuses. -/
def exRecords : List TestResult :=
  [{ status := "passed", start := none, stop := none },
   { status := "failed", start := none, stop := none }]

/-- A per-run fetcher that succeeds for `run-A` and throws for every
other run. -/
def exFetchRun : String → Except String RunSummary :=
  fun r => if r = "run-A" then .ok zeroSummary else .error "list failed"

/-- A per-run fetcher that succeeds for every run. -/
def exFetchOk : String → Except String RunSummary := fun _ => .ok zeroSummary

/-- A cache state holding one fetched report. -/
def exCache : CacheState :=
  { reports := [{ runId := "run-A", summary := zeroSummary }]
    summary := none
    lastFetched := some 1000
    loading := false
    error := none }

/-- A cache state whose last fetch returned zero reports. -/
def exEmptyCache : CacheState :=
  { reports := []
    summary := none
    lastFetched := some 1000
    loading := false
    error := none }

/-- A per-object stream fetch that always succeeds. -/
def allOk : String → Bool := fun _ => true

/-! ## Helper lemmas -/

theorem foldl_min_mem (xs : List Int) : ∀ x : Int, xs.foldl min x ∈ x :: xs := by
  induction xs with
  | nil => intro x; simp
  | cons y ys ih =>
    intro x
    have h := ih (min x y)
    simp only [List.foldl_cons]
    rcases List.mem_cons.mp h with h | h
    · rcases min_choice x y with hm | hm
      · rw [h, hm]; exact List.mem_cons_self _ _
      · rw [h, hm]; exact List.mem_cons_of_mem _ (List.mem_cons_self _ _)
    · exact List.mem_cons_of_mem _ (List.mem_cons_of_mem _ h)

theorem foldl_min_le (xs : List Int) : ∀ x : Int, ∀ y ∈ x :: xs, xs.foldl min x ≤ y := by
  induction xs with
  | nil =>
    intro x y hy
    rcases List.mem_cons.mp hy with h | h
    · simp [h]
    · cases h
  | cons z zs ih =>
    intro x y hy
    simp only [List.foldl_cons]
    rcases List.mem_cons.mp hy with h | h
    · rw [h]
      exact le_trans (ih (min x z) (min x z) (List.mem_cons_self _ _)) (min_le_left _ _)
    · rcases List.mem_cons.mp h with h2 | h2
      · rw [h2]
        exact le_trans (ih (min x z) (min x z) (List.mem_cons_self _ _)) (min_le_right _ _)
      · exact ih (min x z) y (List.mem_cons_of_mem _ h2)

theorem foldl_max_mem (xs : List Int) : ∀ x : Int, xs.foldl max x ∈ x :: xs := by
  induction xs with
  | nil => intro x; simp
  | cons y ys ih =>
    intro x
    have h := ih (max x y)
    simp only [List.foldl_cons]
    rcases List.mem_cons.mp h with h | h
    · rcases max_choice x y with hm | hm
      · rw [h, hm]; exact List.mem_cons_self _ _
      · rw [h, hm]; exact List.mem_cons_of_mem _ (List.mem_cons_self _ _)
    · exact List.mem_cons_of_mem _ (List.mem_cons_of_mem _ h)

theorem le_foldl_max (xs : List Int) : ∀ x : Int, ∀ y ∈ x :: xs, y ≤ xs.foldl max x := by
  induction xs with
  | nil =>
    intro x y hy
    rcases List.mem_cons.mp hy with h | h
    · simp [h]
    · cases h
  | cons z zs ih =>
    intro x y hy
    simp only [List.foldl_cons]
    rcases List.mem_cons.mp hy with h | h
    · rw [h]
      exact le_trans (le_max_left _ _) (ih (max x z) (max x z) (List.mem_cons_self _ _))
    · rcases List.mem_cons.mp h with h2 | h2
      · rw [h2]
        exact le_trans (le_max_right _ _) (ih (max x z) (max x z) (List.mem_cons_self _ _))
      · exact ih (max x z) y (List.mem_cons_of_mem _ h2)

theorem filter_status_partition (records : List TestResult)
    (h : ∀ r ∈ records, r.status = "passed" ∨ r.status = "failed" ∨
      r.status = "broken" ∨ r.status = "skipped") :
    (records.filter (fun r => r.status == "passed")).length +
      (records.filter (fun r => r.status == "failed")).length +
      (records.filter (fun r => r.status == "broken")).length +
      (records.filter (fun r => r.status == "skipped")).length = records.length := by
  induction records with
  | nil => rfl
  | cons a l ih =>
    have ha := h a (List.mem_cons_self a l)
    have ih' := ih fun r hr => h r (List.mem_cons_of_mem a hr)
    rcases ha with h1 | h1 | h1 | h1 <;>
      simp [List.filter_cons, h1] <;> omega

/-! ## Claim theorems -/

/-- Claim C1: for every clean list of parsed test-result records, the
summarizer's `statistic.total` is the length of the list, each
per-status count is the number of records whose status string equals
that status exactly (case-sensitively), and
`passed + failed + broken + skipped = total` whenever every record's
status is one of the four known values. -/
theorem summarizer_statistic (records : List TestResult) :
    (statisticOf records).total = records.length ∧
    (statisticOf records).passed = records.countP (fun r => r.status == "passed") ∧
    (statisticOf records).failed = records.countP (fun r => r.status == "failed") ∧
    (statisticOf records).broken = records.countP (fun r => r.status == "broken") ∧
    (statisticOf records).skipped = records.countP (fun r => r.status == "skipped") ∧
    ((∀ r ∈ records, r.status = "passed" ∨ r.status = "failed" ∨
        r.status = "broken" ∨ r.status = "skipped") →
      (statisticOf records).passed + (statisticOf records).failed +
        (statisticOf records).broken + (statisticOf records).skipped =
        (statisticOf records).total) := by
  refine ⟨rfl, ?_, ?_, ?_, ?_, ?_⟩
  · simp [statisticOf, List.countP_eq_length_filter]
  · simp [statisticOf, List.countP_eq_length_filter]
  · simp [statisticOf, List.countP_eq_length_filter]
  · simp [statisticOf, List.countP_eq_length_filter]
  · intro h
    exact filter_status_partition records h

/-- Witness for C1 at a concrete two-record list whose statuses are all
known values. -/
theorem summarizer_statistic_witness :
    (statisticOf exRecords).passed + (statisticOf exRecords).failed +
      (statisticOf exRecords).broken + (statisticOf exRecords).skipped =
      (statisticOf exRecords).total :=
  (summarizer_statistic exRecords).2.2.2.2.2 (by decide)

/-- Claim C2: whenever the clean list of parsed records is empty —
either because no `-result.json` files exist or because every candidate
file fails to parse — the summary has all five counts 0 and time bounds
that are `null` in the JSON response (in the all-parse-fail branch the
in-memory values are `Math.min()` = `Infinity` / `Math.max()` =
`-Infinity`, which `JSON.stringify` serializes to `null`); the
summarizer is a total function with no failure path. -/
theorem summarizer_empty_clean (objectKeys : List String)
    (fetchParse : String → Option TestResult) (now : Int)
    (h : ((objectKeys.filter (fun k => k.endsWith "-result.json")).map
      fetchParse).filterMap id = []) :
    (fetchSummary objectKeys fetchParse now).statistic = Statistic.mk 0 0 0 0 0 ∧
    (fetchSummary objectKeys fetchParse now).time.start.toJson = none ∧
    (fetchSummary objectKeys fetchParse now).time.stop.toJson = none := by
  by_cases he : (objectKeys.filter (fun k => k.endsWith "-result.json")).isEmpty
  · simp [fetchSummary, he, zeroSummary, TimeVal.toJson]
  · simp [fetchSummary, he, h, statisticOf, timeStartOf, timeStopOf, mathMin, mathMax,
      TimeVal.toJson]

/-- Witness for C2: one candidate result file that fails to parse. -/
theorem summarizer_empty_clean_witness :
    (fetchSummary ["a-result.json"] noParse 0).statistic = Statistic.mk 0 0 0 0 0 ∧
    (fetchSummary ["a-result.json"] noParse 0).time.start.toJson = none ∧
    (fetchSummary ["a-result.json"] noParse 0).time.stop.toJson = none :=
  summarizer_empty_clean ["a-result.json"] noParse 0
    (by simp [noParse, List.filterMap_map, List.filterMap_eq_nil_iff])

/-- Counterexample to claim C8 as stated: a record whose `start` field
is present but equal to 0 does not contribute its own value to the
minimum — JavaScript's `r.start || Date.now()` treats the falsy number
0 as missing, so the code substitutes `now` (here 1000) where the
claim's reading yields 0. -/
theorem time_bounds_zero_start_cex :
    timeStartOf [exZeroStart] 1000 = TimeVal.fin 1000 ∧
    specTimeStart [exZeroStart] 1000 = TimeVal.fin 0 ∧
    timeStartOf [exZeroStart] 1000 ≠ specTimeStart [exZeroStart] 1000 := by
  refine ⟨rfl, rfl, ?_⟩
  decide

/-- Claim C8 (amended): over a non-empty clean list, the start bound is
the minimum and the stop bound the maximum of the per-record
contributions, where a record whose field is missing or equal to 0
(both falsy to `||`) contributes `now` and every other record
contributes its own field value. -/
theorem time_bounds_amended (clean : List TestResult) (now : Int) (h : clean ≠ []) :
    ∃ m M,
      timeStartOf clean now = TimeVal.fin m ∧
      timeStopOf clean now = TimeVal.fin M ∧
      m ∈ clean.map (fun r => jsOrNow r.start now) ∧
      (∀ x ∈ clean.map (fun r => jsOrNow r.start now), m ≤ x) ∧
      M ∈ clean.map (fun r => jsOrNow r.stop now) ∧
      (∀ x ∈ clean.map (fun r => jsOrNow r.stop now), x ≤ M) := by
  cases clean with
  | nil => exact absurd rfl h
  | cons a l =>
    refine ⟨_, _, rfl, rfl, ?_, ?_, ?_, ?_⟩
    · simpa using foldl_min_mem (l.map (fun r => jsOrNow r.start now)) (jsOrNow a.start now)
    · intro x hx
      exact foldl_min_le (l.map (fun r => jsOrNow r.start now)) (jsOrNow a.start now) x
        (by simpa using hx)
    · simpa using foldl_max_mem (l.map (fun r => jsOrNow r.stop now)) (jsOrNow a.stop now)
    · intro x hx
      exact le_foldl_max (l.map (fun r => jsOrNow r.stop now)) (jsOrNow a.stop now) x
        (by simpa using hx)

/-- Witness for the amended C8 at the one-record list with a zero
`start`. -/
theorem time_bounds_amended_witness :
    ([exZeroStart] ≠ ([] : List TestResult)) ∧
    (∃ m M,
      timeStartOf [exZeroStart] 1000 = TimeVal.fin m ∧
      timeStopOf [exZeroStart] 1000 = TimeVal.fin M ∧
      m ∈ [exZeroStart].map (fun r => jsOrNow r.start 1000) ∧
      (∀ x ∈ [exZeroStart].map (fun r => jsOrNow r.start 1000), m ≤ x) ∧
      M ∈ [exZeroStart].map (fun r => jsOrNow r.stop 1000) ∧
      (∀ x ∈ [exZeroStart].map (fun r => jsOrNow r.stop 1000), x ≤ M)) :=
  ⟨by decide, time_bounds_amended [exZeroStart] 1000 (by decide)⟩

/-- Claim C3: for every two run summaries the comparison's
`differences.X` is report 2's count minus report 1's count for each of
the five categories, hence `Comparison(A,B).differences.X =
-Comparison(B,A).differences.X`, and `Comparison(A,A)` has all-zero
differences (including the file-count difference). -/
theorem comparison_differences (r1 r2 : RunCatalogEntry) :
    ((generateComparison r1 r2).differences.total =
        (r2.summary.statistic.total : Int) - (r1.summary.statistic.total : Int) ∧
      (generateComparison r1 r2).differences.passed =
        (r2.summary.statistic.passed : Int) - (r1.summary.statistic.passed : Int) ∧
      (generateComparison r1 r2).differences.failed =
        (r2.summary.statistic.failed : Int) - (r1.summary.statistic.failed : Int) ∧
      (generateComparison r1 r2).differences.broken =
        (r2.summary.statistic.broken : Int) - (r1.summary.statistic.broken : Int) ∧
      (generateComparison r1 r2).differences.skipped =
        (r2.summary.statistic.skipped : Int) - (r1.summary.statistic.skipped : Int)) ∧
    ((generateComparison r1 r2).differences.total =
        -(generateComparison r2 r1).differences.total ∧
      (generateComparison r1 r2).differences.passed =
        -(generateComparison r2 r1).differences.passed ∧
      (generateComparison r1 r2).differences.failed =
        -(generateComparison r2 r1).differences.failed ∧
      (generateComparison r1 r2).differences.broken =
        -(generateComparison r2 r1).differences.broken ∧
      (generateComparison r1 r2).differences.skipped =
        -(generateComparison r2 r1).differences.skipped) ∧
    (generateComparison r1 r1).differences = Differences.mk 0 0 0 0 0 0 := by
  refine ⟨⟨rfl, rfl, rfl, rfl, rfl⟩, ⟨?_, ?_, ?_, ?_, ?_⟩, ?_⟩ <;>
    simp [generateComparison, reportView]

/-- Claim C4: the detail table's percent-change for one category is
`diff / value1 * 100` when the first report's count is positive,
the pseudo-percentage `value2 * 100` when the first count is 0 and the
second positive (so 0 → 4 reports 400), and `N/A` when both are 0. -/
theorem percent_change_cases (a b : Int) :
    (a > 0 → percentChange a b = some (((b : ℚ) - (a : ℚ)) / (a : ℚ) * 100)) ∧
    (a = 0 → b > 0 → percentChange a b = some ((b : ℚ) * 100)) ∧
    (a = 0 → b = 0 → percentChange a b = none) ∧
    percentChange 0 4 = some 400 := by
  refine ⟨?_, ?_, ?_, ?_⟩
  · intro h
    simp [percentChange, h]
  · intro h1 h2
    have hna : ¬ (a > 0) := by omega
    simp [percentChange, hna, h1, h2]
  · intro h1 h2
    subst h1; subst h2
    simp [percentChange]
  · norm_num [percentChange]

/-- Witness for C4: a 2 → 3 change reports 50%, a 0 → 4 change reports
the pseudo-percentage 400, and a 0 → 0 change reports `N/A`. -/
theorem percent_change_witness :
    percentChange 2 3 = some 50 ∧
    percentChange 0 4 = some 400 ∧
    percentChange 0 0 = none := by
  refine ⟨?_, ?_, ?_⟩
  · have h := (percent_change_cases 2 3).1 (by norm_num)
    rw [h]; norm_num
  · exact (percent_change_cases 0 4).2.2.2
  · exact (percent_change_cases 0 0).2.2.1 rfl rfl

/-- With a positive `lastFetched` timestamp and a non-empty cached
reports list, `shouldRefreshData` reduces to the 5-minute staleness
comparison. -/
theorem shouldRefreshData_ready (c : CacheState) (t0 now : Int)
    (hlf : c.lastFetched = some t0) (hpos : 0 < t0) (hne : c.reports ≠ []) :
    shouldRefreshData c now = decide (t0 < now - 5 * 60 * 1000) := by
  simp [shouldRefreshData, hlf, hpos.ne', hne]

/-- Claim C5: in a cache state produced by a successful fetch at time
`t0` (so `lastFetched = t0 > 0` and reports were returned), a
`get(false)` call less than 5 minutes later performs no fetch and
returns the cached reports and summary; a `get(false)` call more than
5 minutes later, or any `get(true)` call, performs a fetch. -/
theorem cache_staleness (c : CacheState) (t0 t1 : Int) (fr : FetchOutcome)
    (hlf : c.lastFetched = some t0) (hpos : 0 < t0) (hne : c.reports ≠ []) :
    (t1 - t0 < 5 * 60 * 1000 →
      (fetchAndCacheReports c false t1 fr).didFetch = false ∧
      (fetchAndCacheReports c false t1 fr).result = .ok (c.reports, c.summary)) ∧
    (5 * 60 * 1000 < t1 - t0 →
      (fetchAndCacheReports c false t1 fr).didFetch = true) ∧
    (fetchAndCacheReports c true t1 fr).didFetch = true := by
  have hs := shouldRefreshData_ready c t0 t1 hlf hpos hne
  refine ⟨?_, ?_, ?_⟩
  · intro hfresh
    have hfalse : shouldRefreshData c t1 = false := by
      rw [hs]; simpa using by omega
    simp [fetchAndCacheReports, hfalse]
  · intro hstale
    have htrue : shouldRefreshData c t1 = true := by
      rw [hs]; simpa using by omega
    cases fr <;> simp [fetchAndCacheReports, htrue]
  · cases fr <;> simp [fetchAndCacheReports]

/-- Witness for C5 at a concrete cache (fetched at 1000): a second call
at 2000 uses the cache, a call at 400001000 refetches, and a forced
call refetches. -/
theorem cache_staleness_witness :
    ((fetchAndCacheReports exCache false 2000 (FetchOutcome.err "down")).didFetch = false ∧
      (fetchAndCacheReports exCache false 2000 (FetchOutcome.err "down")).result =
        .ok (exCache.reports, exCache.summary)) ∧
    (fetchAndCacheReports exCache false 400001000 (FetchOutcome.err "down")).didFetch = true ∧
    (fetchAndCacheReports exCache true 2000 (FetchOutcome.err "down")).didFetch = true := by
  refine ⟨(cache_staleness exCache 1000 2000 (FetchOutcome.err "down") rfl (by norm_num)
      (by simp [exCache])).1 (by norm_num),
    (cache_staleness exCache 1000 400001000 (FetchOutcome.err "down") rfl (by norm_num)
      (by simp [exCache])).2.1 (by norm_num),
    (cache_staleness exCache 1000 2000 (FetchOutcome.err "down") rfl (by norm_num)
      (by simp [exCache])).2.2⟩

/-- Claim C9: whenever a `get` call actually performs a fetch and that
fetch fails, the cache ends in the error state: `error` is set to the
message and `loading` cleared, while the previously cached `reports`,
`summary` and `lastFetched` are preserved unchanged. -/
theorem fetch_failure_preserves (c : CacheState) (force : Bool) (now : Int) (msg : String)
    (h : force = true ∨ shouldRefreshData c now = true) :
    (fetchAndCacheReports c force now (.err msg)).didFetch = true ∧
    (fetchAndCacheReports c force now (.err msg)).state.reports = c.reports ∧
    (fetchAndCacheReports c force now (.err msg)).state.summary = c.summary ∧
    (fetchAndCacheReports c force now (.err msg)).state.lastFetched = c.lastFetched ∧
    (fetchAndCacheReports c force now (.err msg)).state.error = some msg ∧
    (fetchAndCacheReports c force now (.err msg)).state.loading = false ∧
    (fetchAndCacheReports c force now (.err msg)).result = .error msg := by
  rcases h with h | h <;> simp [fetchAndCacheReports, h]

/-- Witness for C9: a forced refresh whose fetch fails leaves the
cached data of `exCache` intact and records the error. -/
theorem fetch_failure_preserves_witness :
    (fetchAndCacheReports exCache true 2000 (.err "down")).didFetch = true ∧
    (fetchAndCacheReports exCache true 2000 (.err "down")).state.reports = exCache.reports ∧
    (fetchAndCacheReports exCache true 2000 (.err "down")).state.summary = exCache.summary ∧
    (fetchAndCacheReports exCache true 2000 (.err "down")).state.lastFetched =
      exCache.lastFetched ∧
    (fetchAndCacheReports exCache true 2000 (.err "down")).state.error = some "down" ∧
    (fetchAndCacheReports exCache true 2000 (.err "down")).state.loading = false ∧
    (fetchAndCacheReports exCache true 2000 (.err "down")).result = .error "down" :=
  fetch_failure_preserves exCache true 2000 "down" (Or.inl rfl)

/-- Claim C10: when the cached reports list is empty, `get(false)`
always fetches, no matter how recent `lastFetched` is — a successful
fetch that returned zero reports is never treated as fresh. -/
theorem empty_reports_always_fetch (c : CacheState) (now : Int) (fr : FetchOutcome)
    (h : c.reports = []) :
    shouldRefreshData c now = true ∧
    (fetchAndCacheReports c false now fr).didFetch = true := by
  have hs : shouldRefreshData c now = true := by
    unfold shouldRefreshData
    cases hl : c.lastFetched with
    | none => rfl
    | some t => simp [h]
  refine ⟨hs, ?_⟩
  cases fr <;> simp [fetchAndCacheReports, hs]

/-- Witness for C10: a cache fetched at time 1000 holding zero reports
still refetches immediately afterwards. -/
theorem empty_reports_always_fetch_witness :
    shouldRefreshData exEmptyCache 1001 = true ∧
    (fetchAndCacheReports exEmptyCache false 1001 (FetchOutcome.err "down")).didFetch = true :=
  empty_reports_always_fetch exEmptyCache 1001 (FetchOutcome.err "down") rfl

/-- Counterexample to claim C6 as stated: with two runs where `run-A`'s
fetch succeeds and `run-B`'s fetch throws, the catalog loop propagates
the exception, so the whole result is an error and `run-A` — whose own
fetch succeeded — appears in no assembled result list. -/
theorem catalog_isolation_cex :
    exFetchRun "run-A" = Except.ok zeroSummary ∧
    listAllReports ["run-A", "run-B"] exFetchRun = Except.error "list failed" := by
  constructor
  · simp [exFetchRun]
  · simp [listAllReports, exFetchRun]

/-- Claim C6 (amended): the catalog has no per-run failure isolation —
the sequential loop aborts on the first run whose fetch throws.  Every
run appears in the assembled list with its summary exactly when all
runs' fetches succeed: an `ok` result implies every run's fetch
succeeded and its entry is present, and if every run's fetch succeeds
the result is `ok`. -/
theorem catalog_all_or_nothing (runIds : List String)
    (fetchRun : String → Except String RunSummary) :
    (∀ l, listAllReports runIds fetchRun = Except.ok l →
      ∀ r ∈ runIds, ∃ s, fetchRun r = Except.ok s ∧
        ({ runId := r, summary := s } : RunCatalogEntry) ∈ l) ∧
    ((∀ r ∈ runIds, ∃ s, fetchRun r = Except.ok s) →
      ∃ l, listAllReports runIds fetchRun = Except.ok l) := by
  induction runIds with
  | nil =>
    refine ⟨?_, fun _ => ⟨[], rfl⟩⟩
    intro l hl r hr
    cases hr
  | cons a rest ih =>
    constructor
    · intro l hl r hr
      rw [listAllReports] at hl
      cases hfa : fetchRun a with
      | error e => rw [hfa] at hl; cases hl
      | ok s =>
        rw [hfa] at hl
        cases hrest : listAllReports rest fetchRun with
        | error e => rw [hrest] at hl; cases hl
        | ok tail =>
          rw [hrest] at hl
          injection hl with hl
          subst hl
          rcases List.mem_cons.mp hr with h | h
          · subst h
            exact ⟨s, hfa, List.mem_cons_self _ _⟩
          · obtain ⟨s', hs', hmem⟩ := ih.1 tail hrest r h
            exact ⟨s', hs', List.mem_cons_of_mem _ hmem⟩
    · intro hall
      obtain ⟨s, hs⟩ := hall a (List.mem_cons_self a rest)
      obtain ⟨tail, htail⟩ := ih.2 fun r hr => hall r (List.mem_cons_of_mem a hr)
      exact ⟨_, by rw [listAllReports, hs, htail]⟩

/-- Witness for the amended C6: with an everywhere-succeeding fetcher
on a one-run catalog, the run's entry is present, and the assembly
returns `ok`. -/
theorem catalog_all_or_nothing_witness :
    (∃ s, exFetchOk "run-A" = Except.ok s ∧
      ({ runId := "run-A", summary := s } : RunCatalogEntry) ∈
        [({ runId := "run-A", summary := zeroSummary } : RunCatalogEntry)]) ∧
    (∃ l, listAllReports ["run-A"] exFetchOk = Except.ok l) := by
  constructor
  · exact (catalog_all_or_nothing ["run-A"] exFetchOk).1
      [{ runId := "run-A", summary := zeroSummary }] rfl "run-A" (List.mem_cons_self _ _)
  · exact (catalog_all_or_nothing ["run-A"] exFetchOk).2 fun r _ => ⟨zeroSummary, rfl⟩

/-- Claim C7: with a non-empty run id, when the storage listing for the
run matches zero objects the endpoint responds 404 with a JSON error
and writes no archive bytes, with the ZIP download headers left unset;
conversely the ZIP headers are only ever set when at least one object
was listed. -/
theorem download_no_files (runId : String) (files : List S3Object)
    (fetchOk : String → Bool) (hr : runId ≠ "") :
    (files = [] →
      (downloadReport runId files fetchOk).status = 404 ∧
      (downloadReport runId files fetchOk).zipHeadersSet = false ∧
      (downloadReport runId files fetchOk).archiveEntries = none) ∧
    ((downloadReport runId files fetchOk).zipHeadersSet = true → files ≠ []) := by
  constructor
  · intro h
    subst h
    simp [downloadReport, hr]
  · intro h hf
    subst hf
    simp [downloadReport, hr] at h

/-- Witness for C7 at the empty listing for run id `run-1`. -/
theorem download_no_files_witness :
    ("run-1" : String) ≠ "" ∧
    ((downloadReport "run-1" [] allOk).status = 404 ∧
      (downloadReport "run-1" [] allOk).zipHeadersSet = false ∧
      (downloadReport "run-1" [] allOk).archiveEntries = none) :=
  ⟨by decide, (download_no_files "run-1" [] allOk (by decide)).1 rfl⟩
